import Mathlib

/-!
Shallow embedding of `src/EqSourceDeterminator.py` (class `EqSourceDeterminator`).

The class holds an epicenter (latitude, longitude, depth) and two geometry
paths, and exposes three methods used in sequence: `is_inland` (point-in-land
containment), `distance_to_fault` (per-fault distances and nearest selection)
and `determine_eq_source` (the rule-based attribution).  Each method stores its
result by assigning an instance attribute that bears the method's own name
(`self.is_inland = ...`, `self.distance_to_fault = ...`), so the instance state
and Python's attribute-before-method lookup are modelled explicitly.

Python floats are modelled as `ℚ`; Python's dynamic typing is modelled by the
tagged value type `PyVal`, and a raised exception by an `Err` alongside the
state at raise time (Python does not roll back attribute assignments made
before a raise).
-/

namespace EqSrc

/-- A planar point in reference-system units, `(x, y)` = (longitude, latitude),
as built by `Point(longitude, latitude)`. -/
structure Pt where
  x : ℚ
  y : ℚ
deriving DecidableEq

/-- Modelled from the spec: the geometry predicate collaborator's point-to-line
planar distance (shapely's `Point.distance(line)`).  A fault line geometry is
abstracted by the planar distance it induces from each point, in
reference-system units. -/
structure Line where
  dist : Pt → ℚ

/-- Modelled from the spec: the geometry predicate collaborator's polygon, with
strict point-in-polygon semantics — `interior p` holds when `p` is strictly
inside the polygon, `boundary p` when `p` touches its boundary.  The standard
`contains` predicate used by `land_geometry.contains(eq_point)` is interior
membership only: boundary-only contact does not count as contained. -/
structure Polygon where
  interior : Pt → Bool
  boundary : Pt → Bool

/-- The geopandas `contains` predicate for one polygon: strict interior
containment (modelled from the spec's geometry collaborator). -/
def polyContains (poly : Polygon) (p : Pt) : Bool :=
  poly.interior p

/-- Line 128: `land_geometry.contains(eq_point).any()` — true when any polygon
of the land layer contains the point. -/
def containsAny (land_geometry : List Polygon) (p : Pt) : Bool :=
  land_geometry.any (fun poly => polyContains poly p)

/-- One record of the fault layer dataframe: columns `Id`, `Name`, `LCLASSSTR`,
`Segment`, the remaining attribute columns (type, maximum magnitude, slip
rate), and the line `geometry`. -/
structure FaultRecord where
  id : Int
  name : String
  lclassstr : String
  segment : String
  ftype : String
  maxMagnitude : ℚ
  slipRate : ℚ
  geometry : Line

/-- One row of the `distance_to_fault` dataframe: the fault dataframe after
adding the `Distance` column and dropping `Id`, `Name`, `LCLASSSTR` and
`geometry` (line 199). -/
structure DistRow where
  segment : String
  ftype : String
  maxMagnitude : ℚ
  slipRate : ℚ
  distance : ℚ
deriving DecidableEq

/-- A Python runtime value, as far as this class inspects values: `None`,
booleans (`bool` / `np.bool_`), ints, floats, strings, the dataframes produced
by `distance_to_fault`, and a bound-method object (the class-level lookup
result for a method name whose instance attribute was never assigned). -/
inductive PyVal where
  | none : PyVal
  | bool : Bool → PyVal
  | int : Int → PyVal
  | float : ℚ → PyVal
  | str : String → PyVal
  | frame : List DistRow → PyVal
  | method : PyVal
deriving DecidableEq

/-- The exceptions the class can raise. -/
inductive Err where
  | fileNotFound : Err
  | valueError : Err
  | typeError : Err
  | attributeError : Err
  | indexError : Err
deriving DecidableEq

/-- Python's `v is None`. -/
def isNone : PyVal → Bool
  | PyVal.none => true
  | _ => false

/-- Python's `isinstance(v, float)` (a Python int or bool is not a float). -/
def isFloat : PyVal → Bool
  | PyVal.float _ => true
  | _ => false

/-- Line 242: `isinstance(depth, int) or isinstance(depth, float)`.  In Python
`bool` is a subclass of `int`, so a boolean passes this check. -/
def isNumeric : PyVal → Bool
  | PyVal.int _ => true
  | PyVal.float _ => true
  | PyVal.bool _ => true
  | _ => false

/-- The numeric value of a Python number (`True` counts as 1, `False` as 0). -/
def toNum : PyVal → Option ℚ
  | PyVal.bool b => some (if b then 1 else 0)
  | PyVal.int n => some (n : ℚ)
  | PyVal.float q => some q
  | _ => Option.none

/-- The numeric value of a value already known to be numeric. -/
def numVal (v : PyVal) : ℚ :=
  (toNum v).getD 0

/-- The `x = self.x if x is None else x` default-resolution idiom. -/
def resolveDefault (arg stored : PyVal) : PyVal :=
  match arg with
  | PyVal.none => stored
  | _ => arg

/-- The instance state of an `EqSourceDeterminator` object: the `__init__`
fields, the two geometry paths (modelled as the already-loaded layers the
external loader would return, `Option.none` for a `None` path), and the
instance attributes the three methods assign — `Option.none` means the
attribute was never assigned. -/
structure InstState where
  latitude : PyVal
  longitude : PyVal
  depth : PyVal
  url0 : Option (List Polygon)
  url1 : Option (List FaultRecord)
  attr_is_inland : Option PyVal
  attr_distance_to_fault : Option PyVal
  attr_nearest_segment : Option PyVal
  attr_segment_name : Option PyVal

/-- Python attribute lookup for `self.is_inland`: the instance attribute when
assigned, else the class-level bound method (never an `AttributeError`). -/
def lookup_is_inland (s : InstState) : PyVal :=
  s.attr_is_inland.getD PyVal.method

/-- Lines 111-128, method `is_inland`.  Calling the method when the instance
attribute `is_inland` has been assigned calls the stored value, which is not
callable — a `TypeError`.  The method validates the geometry path and the
coordinates, loads the land layer (external collaborator, modelled as the
already-loaded layer), builds `Point(longitude, latitude)` and assigns the
any-polygon containment boolean to `self.is_inland`. -/
def is_inland (s : InstState) (latitude longitude : PyVal)
    (url_geometry : Option (List Polygon)) : InstState × Option Err :=
  if s.attr_is_inland.isSome then (s, some Err.typeError)
  else if url_geometry.isNone && s.url0.isNone then (s, some Err.fileNotFound)
  else if isNone latitude && isNone s.latitude then (s, some Err.valueError)
  else if isNone longitude && isNone s.longitude then (s, some Err.valueError)
  else
    let land_geometry := match url_geometry with
      | Option.none => s.url0.getD []
      | some g => g
    let lat := resolveDefault latitude s.latitude
    let lon := resolveDefault longitude s.longitude
    match toNum lon, toNum lat with
    | some x, some y =>
      ({ s with attr_is_inland := some (PyVal.bool (containsAny land_geometry ⟨x, y⟩)) },
        Option.none)
    | _, _ => (s, some Err.typeError)

/-- The scaling constant of line 198: `111.18` kilometers per degree. -/
def kmPerDegree : ℚ :=
  11118 / 100

/-- Lines 198-199: add the `Distance` column (`111.18 *
eq_point.distance(line)` per fault line) and drop `Id`, `Name`, `LCLASSSTR`
and `geometry`, giving the `distance_to_fault` dataframe. -/
def distRowsOf (fault_geometry : List FaultRecord) (eq_point : Pt) : List DistRow :=
  fault_geometry.map (fun r =>
    { segment := r.segment
      ftype := r.ftype
      maxMagnitude := r.maxMagnitude
      slipRate := r.slipRate
      distance := kmPerDegree * r.geometry.dist eq_point })

/-- Line 200: `rows.loc[rows.Distance == rows.Distance.min()]` — every row
whose distance equals the column minimum (pandas `min` of an empty column is
`NaN`, which compares unequal to everything, so an empty frame selects
nothing). -/
def nearestSelection (rows : List DistRow) : List DistRow :=
  match (rows.map (fun r => r.distance)).min? with
  | Option.none => []
  | some m => rows.filter (fun r => r.distance = m)

/-- Lines 175-200, method `distance_to_fault`.  Calling the method when the
instance attribute `distance_to_fault` has been assigned calls the stored
dataframe — a `TypeError`.  The method validates the geometry path and the
presence of the coordinates, then requires each effective coordinate to be a
float (line 187/191, rejecting ints), loads and reprojects the fault layer
(external collaborator, modelled as the already-loaded geographic layer),
computes the distance rows and assigns the full frame to
`self.distance_to_fault` and the minimum-distance rows to
`self.nearest_segment`. -/
def distance_to_fault (s : InstState) (latitude longitude : PyVal)
    (url_geometry : Option (List FaultRecord)) : InstState × Option Err :=
  if s.attr_distance_to_fault.isSome then (s, some Err.typeError)
  else if url_geometry.isNone && s.url1.isNone then (s, some Err.fileNotFound)
  else if isNone latitude && isNone s.latitude then (s, some Err.valueError)
  else if isNone longitude && isNone s.longitude then (s, some Err.valueError)
  else
    let fault_geometry := match url_geometry with
      | Option.none => s.url1.getD []
      | some g => g
    let lat := resolveDefault latitude s.latitude
    if isFloat lat then
      let lon := resolveDefault longitude s.longitude
      if isFloat lon then
        let eq_point : Pt := ⟨numVal lon, numVal lat⟩
        let rows := distRowsOf fault_geometry eq_point
        ({ s with
            attr_distance_to_fault := some (PyVal.frame rows)
            attr_nearest_segment := some (PyVal.frame (nearestSelection rows)) },
          Option.none)
      else (s, some Err.typeError)
    else (s, some Err.typeError)

/-- Line 247: the subduction-zone label `'zona subduksi'`. -/
def subductionLabel : String :=
  "zona subduksi"

/-- Line 271: the generic local-fault label `'Sesar Lokal'` ("Local Fault"). -/
def localFaultLabel : String :=
  "Sesar Lokal"

/-- Lines 234-235 and 239: validation and default-resolution of
`nearest_segment`.  There is no class-level fallback for
`self.nearest_segment`, so when the argument is `None` an unassigned attribute
is an `AttributeError`, an attribute assigned `None` is the `ValueError`, and
otherwise the stored value is used; a non-`None` argument short-circuits the
attribute access entirely. -/
def getNearest (s : InstState) (nearest_segment : PyVal) : Except Err PyVal :=
  match nearest_segment with
  | PyVal.none =>
    match s.attr_nearest_segment with
    | Option.none => Except.error Err.attributeError
    | some v =>
      match v with
      | PyVal.none => Except.error Err.valueError
      | _ => Except.ok v
  | v => Except.ok v

/-- Lines 267-271, the land branch body when `segment_name` is `None`:
`nearest_segment.Distance.values < 16` is a numpy elementwise comparison whose
truth value is the element's for a one-row frame and raises the
ambiguous-truth `ValueError` for any other length; a non-frame value has no
`Distance` attribute (`AttributeError`). -/
def landAttribution (s : InstState) (nearestV : PyVal) : InstState × Option Err :=
  match nearestV with
  | PyVal.frame [r] =>
    if r.distance < 16 then
      ({ s with attr_segment_name := some (PyVal.str r.segment) }, Option.none)
    else
      ({ s with attr_segment_name := some (PyVal.str localFaultLabel) }, Option.none)
  | PyVal.frame _ => (s, some Err.valueError)
  | _ => (s, some Err.attributeError)

/-- Lines 274-275, the sea branch body when `segment_name` is `None`:
`nearest_segment.Segment.values[0]` takes the first row's segment name
(`IndexError` on an empty frame, `AttributeError` on a non-frame). -/
def seaAttribution (s : InstState) (nearestV : PyVal) : InstState × Option Err :=
  match nearestV with
  | PyVal.frame (r :: _) =>
    ({ s with attr_segment_name := some (PyVal.str r.segment) }, Option.none)
  | PyVal.frame [] => (s, some Err.indexError)
  | _ => (s, some Err.attributeError)

/-- Lines 242-277: the depth rule then the land/sea branch, applied to the
already-resolved effective values.  A numeric depth (Python bools are ints)
assigns `self.segment_name` — the subduction label when `depth > 50`, `None`
otherwise — before the `is_inland` type check runs; a non-numeric depth is a
`TypeError` raised before any assignment.  A boolean `is_inland` then assigns
`self.is_inland = 'darat'` or `'laut'` and, when `segment_name` is still
`None`, runs the land or sea attribution; a non-boolean is a `TypeError`
raised after `segment_name` was already assigned. -/
def attributeCore (s : InstState) (inlandV nearestV depthV : PyVal) :
    InstState × Option Err :=
  if isNumeric depthV then
    let s1 :=
      if (50 : ℚ) < numVal depthV then
        { s with attr_segment_name := some (PyVal.str subductionLabel) }
      else
        { s with attr_segment_name := some PyVal.none }
    match inlandV with
    | PyVal.bool true =>
      let s2 := { s1 with attr_is_inland := some (PyVal.str "darat") }
      match s2.attr_segment_name with
      | some PyVal.none => landAttribution s2 nearestV
      | _ => (s2, Option.none)
    | PyVal.bool false =>
      let s2 := { s1 with attr_is_inland := some (PyVal.str "laut") }
      match s2.attr_segment_name with
      | some PyVal.none => seaAttribution s2 nearestV
      | _ => (s2, Option.none)
    | _ => (s1, some Err.typeError)
  else (s, some Err.typeError)

/-- Lines 232-277, method `determine_eq_source`.  The three validation checks
run first (`self.is_inland` falls back to the bound method, which is never
`None`); then the effective nearest record, depth and containment value are
resolved from argument or instance attribute and the attribution core runs. -/
def determine_eq_source (s : InstState) (is_inland nearest_segment depth : PyVal) :
    InstState × Option Err :=
  if isNone is_inland && isNone (lookup_is_inland s) then (s, some Err.valueError)
  else
    match getNearest s nearest_segment with
    | Except.error e => (s, some e)
    | Except.ok nearestV =>
      if isNone depth && isNone s.depth then (s, some Err.valueError)
      else
        attributeCore s (resolveDefault is_inland (lookup_is_inland s)) nearestV
          (resolveDefault depth s.depth)

/-- A value satisfies `is None` exactly when it is the Python `None`. -/
@[simp]
theorem isNone_iff (v : PyVal) : isNone v = true ↔ v = PyVal.none := by
  cases v <;> simp [isNone]

/-- A two-sided `x is None and self.x is None` guard holds exactly when the
effective (default-resolved) value is `None`. -/
theorem guard_eq (x y : PyVal) :
    (isNone x && isNone y) = true ↔ resolveDefault x y = PyVal.none := by
  cases x <;> cases y <;> simp [isNone, resolveDefault]

/-- The two-sided `x is None and self.x is None` guards of
`determine_eq_source` are equivalent to the effective (default-resolved) value
being `None`, so the method equals the guard-then-core pipeline over effective
values. -/
theorem determine_eq_source_eq (s : InstState) (a n d : PyVal) :
    determine_eq_source s a n d =
      if resolveDefault a (lookup_is_inland s) = PyVal.none then (s, some Err.valueError)
      else
        match getNearest s n with
        | Except.error e => (s, some e)
        | Except.ok nv =>
          if resolveDefault d s.depth = PyVal.none then (s, some Err.valueError)
          else attributeCore s (resolveDefault a (lookup_is_inland s)) nv
            (resolveDefault d s.depth) := by
  simp only [determine_eq_source, guard_eq]

/-- With a boolean `is_inland` argument, a frame `nearest_segment` argument and
a numeric `depth` argument, every validation check passes and
`determine_eq_source` reduces to the attribution core on those values. -/
theorem determine_explicit (s : InstState) (b : Bool) (nr : List DistRow) (d : PyVal)
    (hnum : isNumeric d = true) :
    determine_eq_source s (PyVal.bool b) (PyVal.frame nr) d
      = attributeCore s (PyVal.bool b) (PyVal.frame nr) d := by
  cases d <;>
    simp_all [determine_eq_source, getNearest, isNone, isNumeric, resolveDefault]

/-- With a numeric depth strictly above 50, the attribution core sets the
subduction-zone label and the location string, touching nothing else. -/
theorem attributeCore_gt50 (s : InstState) (b : Bool) (nv dv : PyVal)
    (hnum : isNumeric dv = true) (h50 : (50 : ℚ) < numVal dv) :
    attributeCore s (PyVal.bool b) nv dv =
      ({ s with attr_segment_name := some (PyVal.str subductionLabel),
                attr_is_inland := some (PyVal.str (if b then "darat" else "laut")) },
        Option.none) := by
  cases b <;> simp [attributeCore, hnum, h50]

/-- With a numeric depth of 50 or below and a land containment boolean, the
attribution core clears `segment_name`, stores `'darat'`, and runs the land
attribution. -/
theorem attributeCore_le50_land (s : InstState) (nv dv : PyVal)
    (hnum : isNumeric dv = true) (h50 : ¬ (50 : ℚ) < numVal dv) :
    attributeCore s (PyVal.bool true) nv dv =
      landAttribution
        { s with attr_segment_name := some PyVal.none,
                 attr_is_inland := some (PyVal.str "darat") } nv := by
  simp [attributeCore, hnum, h50]

/-- With a numeric depth of 50 or below and a sea containment boolean, the
attribution core clears `segment_name`, stores `'laut'`, and runs the sea
attribution. -/
theorem attributeCore_le50_sea (s : InstState) (nv dv : PyVal)
    (hnum : isNumeric dv = true) (h50 : ¬ (50 : ℚ) < numVal dv) :
    attributeCore s (PyVal.bool false) nv dv =
      seaAttribution
        { s with attr_segment_name := some PyVal.none,
                 attr_is_inland := some (PyVal.str "laut") } nv := by
  simp [attributeCore, hnum, h50]

/-- A fresh instance whose `__init__` arguments were all `None` and whose
method-result attributes were never assigned. -/
def emptyState : InstState :=
  ⟨PyVal.none, PyVal.none, PyVal.none, Option.none, Option.none,
    Option.none, Option.none, Option.none, Option.none⟩

/-- A one-row nearest frame whose segment name happens to be the
subduction-zone label itself. -/
def subductionNamedRow : DistRow :=
  ⟨subductionLabel, "thrust", 7, 1, 5⟩

/-- C1 — the claim as stated is false: at depth exactly 50 (not strictly
greater) with a sea containment result and a nearest record whose `Segment`
name is itself `'zona subduksi'`, the attribution succeeds and sets
`segment_name` to the subduction-zone label, although the subduction branch
was not taken. -/
theorem C1_counterexample :
    (determine_eq_source emptyState (PyVal.bool false)
        (PyVal.frame [subductionNamedRow]) (PyVal.int 50)).2 = Option.none ∧
      (determine_eq_source emptyState (PyVal.bool false)
        (PyVal.frame [subductionNamedRow]) (PyVal.int 50)).1.attr_segment_name
        = some (PyVal.str subductionLabel) := by
  constructor <;> rfl

/-- C1 (amended) — for every containment boolean, nearest frame and numeric
depth: with depth strictly greater than 50 the attribution sets `segment_name`
to the subduction-zone label, overriding both the land/sea branch and the
distance threshold; with depth 50 or below the subduction branch is not taken,
so any successfully produced `segment_name` is a `Segment` name taken from the
nearest frame or the generic local-fault label (hence the subduction-zone
label appears only when a fault record itself bears that name). -/
theorem C1_theorem (s : InstState) (b : Bool) (nr : List DistRow) (d : PyVal)
    (hnum : isNumeric d = true) :
    ((50 : ℚ) < numVal d →
      (determine_eq_source s (PyVal.bool b) (PyVal.frame nr) d).2 = Option.none ∧
        (determine_eq_source s (PyVal.bool b) (PyVal.frame nr) d).1.attr_segment_name
          = some (PyVal.str subductionLabel)) ∧
    (numVal d ≤ 50 →
      (determine_eq_source s (PyVal.bool b) (PyVal.frame nr) d).2 = Option.none →
      (determine_eq_source s (PyVal.bool b) (PyVal.frame nr) d).1.attr_segment_name
          = some (PyVal.str localFaultLabel) ∨
        ∃ r ∈ nr, (determine_eq_source s (PyVal.bool b) (PyVal.frame nr) d).1.attr_segment_name
          = some (PyVal.str r.segment)) := by
  rw [determine_explicit s b nr d hnum]
  constructor
  · intro h50
    rw [attributeCore_gt50 s b _ d hnum h50]
    exact ⟨rfl, rfl⟩
  · intro h50 hok
    have h50' : ¬ (50 : ℚ) < numVal d := not_lt.mpr h50
    revert hok
    cases b
    · rw [attributeCore_le50_sea s _ d hnum h50']
      match nr with
      | [] => intro h; exact absurd h (by simp [seaAttribution])
      | r :: rest => intro _; right; exact ⟨r, by simp, by simp [seaAttribution]⟩
    · rw [attributeCore_le50_land s _ d hnum h50']
      match nr with
      | [] => intro h; exact absurd h (by simp [landAttribution])
      | [r] =>
        by_cases hr : r.distance < 16
        · intro _; right; exact ⟨r, by simp, by simp [landAttribution, hr]⟩
        · intro _; left; simp [landAttribution, hr]
      | r :: r2 :: rest => intro h; exact absurd h (by simp [landAttribution])

/-- C1 witness: depth 51 over a sea containment result forces the
subduction-zone label. -/
theorem C1_witness :
    isNumeric (PyVal.int 51) = true ∧ (50 : ℚ) < numVal (PyVal.int 51) ∧
      (determine_eq_source emptyState (PyVal.bool false)
        (PyVal.frame [⟨"Mentawai", "t", 7, 1, 5⟩]) (PyVal.int 51)).1.attr_segment_name
        = some (PyVal.str subductionLabel) :=
  ⟨by decide, by decide,
    ((C1_theorem emptyState false [⟨"Mentawai", "t", 7, 1, 5⟩] (PyVal.int 51)
      (by decide)).1 (by decide)).2⟩

/-- C2 — for every land event with numeric depth at most 50 and a one-row
nearest frame, the attribution sets `segment_name` to the nearest record's
`Segment` name exactly when its distance is strictly below 16 km, and to the
generic local-fault label (`'Sesar Lokal'`, the "Local Fault" fallback) when
the distance is 16 km or more; either way the location string becomes
`'darat'`. -/
theorem C2_theorem (s : InstState) (r : DistRow) (d : PyVal)
    (hnum : isNumeric d = true) (h50 : numVal d ≤ 50) :
    (r.distance < 16 →
      determine_eq_source s (PyVal.bool true) (PyVal.frame [r]) d =
        ({ s with attr_segment_name := some (PyVal.str r.segment),
                  attr_is_inland := some (PyVal.str "darat") }, Option.none)) ∧
    (16 ≤ r.distance →
      determine_eq_source s (PyVal.bool true) (PyVal.frame [r]) d =
        ({ s with attr_segment_name := some (PyVal.str localFaultLabel),
                  attr_is_inland := some (PyVal.str "darat") }, Option.none)) := by
  rw [determine_explicit s true [r] d hnum,
    attributeCore_le50_land s _ d hnum (not_lt.mpr h50)]
  constructor
  · intro hr; simp [landAttribution, hr]
  · intro hr; simp [landAttribution, not_lt.mpr hr]

/-- C2 witness: on land at depth 30, a named fault 15 km away is attributed by
name, and one 16 km away falls back to the local-fault label. -/
theorem C2_witness :
    (15 : ℚ) < 16 ∧ (16 : ℚ) ≤ 16 ∧
      determine_eq_source emptyState (PyVal.bool true)
          (PyVal.frame [⟨"Mentawai", "t", 7, 1, 15⟩]) (PyVal.int 30) =
        ({ emptyState with attr_segment_name := some (PyVal.str "Mentawai"),
                           attr_is_inland := some (PyVal.str "darat") }, Option.none) ∧
      determine_eq_source emptyState (PyVal.bool true)
          (PyVal.frame [⟨"Lembang", "t", 7, 1, 16⟩]) (PyVal.int 30) =
        ({ emptyState with attr_segment_name := some (PyVal.str localFaultLabel),
                           attr_is_inland := some (PyVal.str "darat") }, Option.none) :=
  ⟨by decide, by decide,
    (C2_theorem emptyState ⟨"Mentawai", "t", 7, 1, 15⟩ (PyVal.int 30)
      (by decide) (by decide)).1 (by decide),
    (C2_theorem emptyState ⟨"Lembang", "t", 7, 1, 16⟩ (PyVal.int 30)
      (by decide) (by decide)).2 (by decide)⟩

/-- C3 — for every sea event with numeric depth at most 50 and a non-empty
nearest frame, the attribution sets `segment_name` to the first nearest
record's `Segment` name whatever its distance is — no distance threshold is
applied in the sea branch — and the location string becomes `'laut'`. -/
theorem C3_theorem (s : InstState) (r : DistRow) (rest : List DistRow) (d : PyVal)
    (hnum : isNumeric d = true) (h50 : numVal d ≤ 50) :
    determine_eq_source s (PyVal.bool false) (PyVal.frame (r :: rest)) d =
      ({ s with attr_segment_name := some (PyVal.str r.segment),
                attr_is_inland := some (PyVal.str "laut") }, Option.none) := by
  rw [determine_explicit s false (r :: rest) d hnum,
    attributeCore_le50_sea s _ d hnum (not_lt.mpr h50)]
  simp [seaAttribution]

/-- C3 witness: at sea, depth 10, a fault 500 km away is still attributed by
name. -/
theorem C3_witness :
    determine_eq_source emptyState (PyVal.bool false)
        (PyVal.frame [⟨"Mentawai", "t", 7, 1, 500⟩]) (PyVal.float 10) =
      ({ emptyState with attr_segment_name := some (PyVal.str "Mentawai"),
                         attr_is_inland := some (PyVal.str "laut") }, Option.none) :=
  C3_theorem emptyState ⟨"Mentawai", "t", 7, 1, 500⟩ [] (PyVal.float 10)
    (by decide) (by decide)

/-- The rows of a minimum-distance selection are exactly the rows of minimal
distance, and a non-empty frame always selects at least one row. -/
theorem nearestSelection_charac (rows : List DistRow) (hne : rows ≠ []) :
    nearestSelection rows ≠ [] ∧
      ∀ r : DistRow, r ∈ nearestSelection rows ↔
        (r ∈ rows ∧ ∀ q ∈ rows, r.distance ≤ q.distance) := by
  have hmapne : rows.map (fun r => r.distance) ≠ [] := by
    simpa using hne
  obtain ⟨m, hm⟩ : ∃ m, (rows.map (fun r => r.distance)).min? = some m := by
    cases h : (rows.map (fun r => r.distance)).min? with
    | none => exact absurd (List.min?_eq_none_iff.mp h) hmapne
    | some m => exact ⟨m, rfl⟩
  have hchar := (@List.min?_eq_some_iff ℚ m _ _ ⟨fun {_ _} h h2 => le_antisymm h h2⟩
    (fun a => le_refl a) (fun a b => min_choice a b)
    (fun _ _ _ => le_min_iff) (rows.map (fun r => r.distance))).mp hm
  obtain ⟨hmem, hle⟩ := hchar
  obtain ⟨r0, hr0, hr0d⟩ := List.mem_map.mp hmem
  have hsel : nearestSelection rows = rows.filter (fun r => r.distance = m) := by
    simp [nearestSelection, hm]
  have hiff : ∀ r : DistRow, r ∈ nearestSelection rows ↔
      (r ∈ rows ∧ ∀ q ∈ rows, r.distance ≤ q.distance) := by
    intro r
    rw [hsel, List.mem_filter]
    constructor
    · rintro ⟨hr, hrd⟩
      have hrd' : r.distance = m := by simpa using hrd
      exact ⟨hr, fun q hq => hrd' ▸ hle _ (List.mem_map.mpr ⟨q, hq, rfl⟩)⟩
    · rintro ⟨hr, hmin⟩
      refine ⟨hr, ?_⟩
      have h1 : m ≤ r.distance := hle _ (List.mem_map.mpr ⟨r, hr, rfl⟩)
      have h2 : r.distance ≤ m := hr0d ▸ hmin r0 hr0
      simpa using le_antisymm h2 h1
  refine ⟨?_, hiff⟩
  intro hempty
  have : r0 ∈ nearestSelection rows :=
    (hiff r0).mpr ⟨hr0, fun q hq => hr0d ▸ hle _ (List.mem_map.mpr ⟨q, hq, rfl⟩)⟩
  simp [hempty] at this

/-- Two rows tied at the same distance are both kept by the minimum-distance
selection, in order. -/
theorem nearestSelection_pair_eq (r1 r2 : DistRow) (h : r1.distance = r2.distance) :
    nearestSelection [r1, r2] = [r1, r2] := by
  simp [nearestSelection, List.min?_cons', List.filter, h]

/-- The number of rows in the stored `nearest_segment` dataframe (0 when the
attribute holds no dataframe). -/
def storedNearestCount (s : InstState) : Nat :=
  match s.attr_nearest_segment with
  | some (PyVal.frame rows) => rows.length
  | _ => 0

/-- A fault line at constant planar distance 5 from every point. -/
def tieLine : Line :=
  ⟨fun _ => 5⟩

/-- Two distinct fault records whose geometries are equidistant from the
epicenter. -/
def recA : FaultRecord :=
  ⟨1, "a", "L", "SegA", "t", 7, 1, tieLine⟩

/-- The second tied fault record. -/
def recB : FaultRecord :=
  ⟨2, "b", "L", "SegB", "t", 7, 1, tieLine⟩

/-- An instance built over the two tied fault records with float coordinates. -/
def tieState : InstState :=
  { emptyState with latitude := PyVal.float 1, longitude := PyVal.float 2,
                    url1 := some [recA, recB] }

/-- C4 — the claim as stated is false: with two fault records at the same
minimum distance, `distance_to_fault` succeeds but stores a `nearest_segment`
selection holding both tied records, not exactly one. -/
theorem C4_counterexample :
    (distance_to_fault tieState PyVal.none PyVal.none Option.none).2 = Option.none ∧
      storedNearestCount (distance_to_fault tieState PyVal.none PyVal.none Option.none).1 = 2 := by
  have h1 : (distance_to_fault tieState PyVal.none PyVal.none Option.none).1.attr_nearest_segment
      = some (PyVal.frame (nearestSelection (distRowsOf [recA, recB] ⟨2, 1⟩))) := rfl
  have h2 : distRowsOf [recA, recB] ⟨2, 1⟩
      = [⟨"SegA", "t", 7, 1, kmPerDegree * 5⟩, ⟨"SegB", "t", 7, 1, kmPerDegree * 5⟩] := rfl
  have h3 := nearestSelection_pair_eq
    (⟨"SegA", "t", 7, 1, kmPerDegree * 5⟩ : DistRow)
    (⟨"SegB", "t", 7, 1, kmPerDegree * 5⟩ : DistRow) rfl
  refine ⟨rfl, ?_⟩
  simp [storedNearestCount, h1, h2, h3]

/-- C4 (amended) — for every non-empty fault layer, `distance_to_fault`
selects the rows of minimum `distance_km`: the selection is non-empty, keeps
layer order (it is a sublist of the distance rows), and holds exactly the rows
whose distance is minimal — so a unique minimum selects exactly one record,
while tied minima select every tied record (the attribution stage later uses
the first of them). -/
theorem C4_theorem (records : List FaultRecord) (pt : Pt) (h : records ≠ []) :
    nearestSelection (distRowsOf records pt) ≠ [] ∧
      (nearestSelection (distRowsOf records pt)).Sublist (distRowsOf records pt) ∧
      ∀ r : DistRow, r ∈ nearestSelection (distRowsOf records pt) ↔
        (r ∈ distRowsOf records pt ∧
          ∀ q ∈ distRowsOf records pt, r.distance ≤ q.distance) := by
  have hne : distRowsOf records pt ≠ [] := by
    simp [distRowsOf, h]
  obtain ⟨h1, h2⟩ := nearestSelection_charac (distRowsOf records pt) hne
  refine ⟨h1, ?_, h2⟩
  unfold nearestSelection
  cases (List.map (fun r => r.distance) (distRowsOf records pt)).min? with
  | none => exact List.nil_sublist _
  | some m => exact List.filter_sublist _

/-- C4 witness: a two-record layer at distances tied gives a non-empty,
order-preserving, minimal selection. -/
theorem C4_witness :
    ([recA, recB] : List FaultRecord) ≠ [] ∧
      nearestSelection (distRowsOf [recA, recB] ⟨2, 1⟩) ≠ [] :=
  ⟨by simp, (C4_theorem [recA, recB] ⟨2, 1⟩ (by simp)).1⟩

/-- When all three validation guards pass, `determine_eq_source` is the
attribution core on the effective values. -/
theorem determine_ok (s : InstState) (a n d nv : PyVal)
    (h1 : resolveDefault a (lookup_is_inland s) ≠ PyVal.none)
    (hgn : getNearest s n = Except.ok nv)
    (h3 : resolveDefault d s.depth ≠ PyVal.none) :
    determine_eq_source s a n d =
      attributeCore s (resolveDefault a (lookup_is_inland s)) nv
        (resolveDefault d s.depth) := by
  rw [determine_eq_source_eq, if_neg h1]
  simp only [hgn]
  rw [if_neg h3]

/-- C5 — the attribution validations: a missing (null) effective containment
result, nearest record or depth raises the `ValueError` of lines 232-237
without touching state; a present but non-numeric depth raises a `TypeError`
without touching state; a present but non-boolean containment value raises a
`TypeError`.  (Effective value = the argument, or the stored instance value
when the argument is `None`; `missing nearest` = argument `None` with the
stored `nearest_segment` being `None`.) -/
theorem C5_theorem (s : InstState) (a n d : PyVal) :
    (resolveDefault a (lookup_is_inland s) = PyVal.none →
      determine_eq_source s a n d = (s, some Err.valueError)) ∧
    (resolveDefault a (lookup_is_inland s) ≠ PyVal.none →
      n = PyVal.none → s.attr_nearest_segment = some PyVal.none →
      determine_eq_source s a n d = (s, some Err.valueError)) ∧
    (resolveDefault a (lookup_is_inland s) ≠ PyVal.none →
      (∃ nv, getNearest s n = Except.ok nv) →
      resolveDefault d s.depth = PyVal.none →
      determine_eq_source s a n d = (s, some Err.valueError)) ∧
    (resolveDefault a (lookup_is_inland s) ≠ PyVal.none →
      (∃ nv, getNearest s n = Except.ok nv) →
      resolveDefault d s.depth ≠ PyVal.none →
      isNumeric (resolveDefault d s.depth) = false →
      determine_eq_source s a n d = (s, some Err.typeError)) ∧
    (resolveDefault a (lookup_is_inland s) ≠ PyVal.none →
      (∀ b, resolveDefault a (lookup_is_inland s) ≠ PyVal.bool b) →
      (∃ nv, getNearest s n = Except.ok nv) →
      isNumeric (resolveDefault d s.depth) = true →
      (determine_eq_source s a n d).2 = some Err.typeError) := by
  refine ⟨?_, ?_, ?_, ?_, ?_⟩
  · intro h1
    rw [determine_eq_source_eq]
    simp [h1]
  · intro h1 hn hsn
    subst hn
    rw [determine_eq_source_eq]
    simp [h1, getNearest, hsn]
  · rintro h1 ⟨nv, hgn⟩ h3
    rw [determine_eq_source_eq]
    simp [h1, hgn, h3]
  · rintro h1 ⟨nv, hgn⟩ h3 hnum
    rw [determine_ok s a n d nv h1 hgn h3]
    simp [attributeCore, hnum]
  · rintro h1 hb ⟨nv, hgn⟩ hnum
    have h3 : resolveDefault d s.depth ≠ PyVal.none := by
      intro hc; rw [hc] at hnum; exact absurd hnum (by simp [isNumeric])
    rw [determine_ok s a n d nv h1 hgn h3]
    cases hiv : resolveDefault a (lookup_is_inland s) with
    | none => exact absurd hiv h1
    | bool b => exact absurd hiv (hb b)
    | int v => simp [attributeCore, hnum]
    | float v => simp [attributeCore, hnum]
    | str v => simp [attributeCore, hnum]
    | frame v => simp [attributeCore, hnum]
    | method => simp [attributeCore, hnum]

/-- An instance whose stored containment attribute was explicitly set to
`None`. -/
def nullInlandState : InstState :=
  { emptyState with attr_is_inland := some PyVal.none }

/-- An instance whose stored nearest-segment attribute was explicitly set to
`None`. -/
def nullNearestState : InstState :=
  { emptyState with attr_nearest_segment := some PyVal.none }

/-- A one-row nearest frame at an integral distance, used as a concrete valid
nearest record. -/
def mentawaiFrame : PyVal :=
  PyVal.frame [⟨"Mentawai", "t", 7, 1, 5⟩]

/-- C5 witness: each validation failure observed at a concrete call — null
containment, null nearest, null depth, string depth, string containment. -/
theorem C5_witness :
    determine_eq_source nullInlandState PyVal.none PyVal.none PyVal.none
        = (nullInlandState, some Err.valueError) ∧
      determine_eq_source nullNearestState (PyVal.bool true) PyVal.none PyVal.none
        = (nullNearestState, some Err.valueError) ∧
      determine_eq_source emptyState (PyVal.bool true) mentawaiFrame PyVal.none
        = (emptyState, some Err.valueError) ∧
      determine_eq_source emptyState (PyVal.bool true) mentawaiFrame (PyVal.str "deep")
        = (emptyState, some Err.typeError) ∧
      (determine_eq_source emptyState (PyVal.str "yes") mentawaiFrame (PyVal.int 30)).2
        = some Err.typeError :=
  ⟨(C5_theorem nullInlandState PyVal.none PyVal.none PyVal.none).1 (by decide),
    (C5_theorem nullNearestState (PyVal.bool true) PyVal.none PyVal.none).2.1
      (by decide) (by decide) (by decide),
    (C5_theorem emptyState (PyVal.bool true) mentawaiFrame PyVal.none).2.2.1
      (by decide) ⟨mentawaiFrame, rfl⟩ (by decide),
    (C5_theorem emptyState (PyVal.bool true) mentawaiFrame (PyVal.str "deep")).2.2.2.1
      (by decide) ⟨mentawaiFrame, rfl⟩ (by decide) (by decide),
    (C5_theorem emptyState (PyVal.str "yes") mentawaiFrame (PyVal.int 30)).2.2.2.2
      (by decide) (by decide) ⟨mentawaiFrame, rfl⟩ (by decide)⟩

/-- An instance holding a valid stored nearest frame and a stored depth of 60,
whose containment attribute was never assigned (so `self.is_inland` is the
bound method). -/
def leakState : InstState :=
  { emptyState with depth := PyVal.int 60,
                    attr_nearest_segment := some mentawaiFrame }

/-- C6 — the claim as stated is false: `determine_eq_source` is not a pure,
state-untouching function; on `leakState` the call fails with a `TypeError`
(the effective containment value is the non-boolean bound method), yet the
depth stage has already assigned `self.segment_name = 'zona subduksi'` — a
partial result left behind by a failing call. -/
theorem C6_counterexample :
    (determine_eq_source leakState PyVal.none PyVal.none PyVal.none).2
        = some Err.typeError ∧
      (determine_eq_source leakState PyVal.none PyVal.none PyVal.none).1.attr_segment_name
        = some (PyVal.str subductionLabel) ∧
      leakState.attr_segment_name = Option.none := by
  refine ⟨by decide, by decide, by decide⟩

/-- C6 (amended) — the attribution stores its outputs by mutating instance
attributes rather than being side-effect free.  Errors raised by the three
validation checks and by the depth type check do leave the state unchanged,
but the containment-value type error is raised only after `segment_name` has
been assigned by the depth stage, so a failing call can leave a partial result
in state. -/
theorem C6_theorem (s : InstState) (a n d : PyVal) :
    ((resolveDefault a (lookup_is_inland s) = PyVal.none ∨
        (∃ e, getNearest s n = Except.error e) ∨
        resolveDefault d s.depth = PyVal.none ∨
        isNumeric (resolveDefault d s.depth) = false) →
      (determine_eq_source s a n d).1 = s ∧
        (determine_eq_source s a n d).2.isSome = true) ∧
    ((∀ b, resolveDefault a (lookup_is_inland s) ≠ PyVal.bool b) →
      resolveDefault a (lookup_is_inland s) ≠ PyVal.none →
      (∃ nv, getNearest s n = Except.ok nv) →
      isNumeric (resolveDefault d s.depth) = true →
      (determine_eq_source s a n d).2 = some Err.typeError ∧
        (determine_eq_source s a n d).1.attr_segment_name =
          some (if (50 : ℚ) < numVal (resolveDefault d s.depth)
            then PyVal.str subductionLabel else PyVal.none)) := by
  constructor
  · intro hdisj
    by_cases h1 : resolveDefault a (lookup_is_inland s) = PyVal.none
    · rw [determine_eq_source_eq]
      simp [h1]
    · cases hgn : getNearest s n with
      | error e =>
        rw [determine_eq_source_eq]
        simp [h1, hgn]
      | ok nv =>
        by_cases h3 : resolveDefault d s.depth = PyVal.none
        · rw [determine_eq_source_eq]
          simp [h1, hgn, h3]
        · have hnum : isNumeric (resolveDefault d s.depth) = false := by
            rcases hdisj with h | ⟨e, he⟩ | h | h
            · exact absurd h h1
            · rw [he] at hgn; exact absurd hgn (by simp)
            · exact absurd h h3
            · exact h
          rw [determine_ok s a n d nv h1 hgn h3]
          simp [attributeCore, hnum]
  · rintro hb h1 ⟨nv, hgn⟩ hnum
    have h3 : resolveDefault d s.depth ≠ PyVal.none := by
      intro hc; rw [hc] at hnum; exact absurd hnum (by simp [isNumeric])
    rw [determine_ok s a n d nv h1 hgn h3]
    cases hiv : resolveDefault a (lookup_is_inland s) with
    | none => exact absurd hiv h1
    | bool b => exact absurd hiv (hb b)
    | int v =>
      refine ⟨?_, ?_⟩ <;> simp [attributeCore, hnum, apply_ite]
    | float v =>
      refine ⟨?_, ?_⟩ <;> simp [attributeCore, hnum, apply_ite]
    | str v =>
      refine ⟨?_, ?_⟩ <;> simp [attributeCore, hnum, apply_ite]
    | frame v =>
      refine ⟨?_, ?_⟩ <;> simp [attributeCore, hnum, apply_ite]
    | method =>
      refine ⟨?_, ?_⟩ <;> simp [attributeCore, hnum, apply_ite]

/-- C6 witness: a depth-stage failure (string depth) leaves the state intact,
while a containment-value type error at stored depth 60 leaves the subduction
label assigned. -/
theorem C6_witness :
    ((determine_eq_source emptyState (PyVal.bool true) mentawaiFrame (PyVal.str "d")).1
        = emptyState) ∧
      (determine_eq_source leakState PyVal.none PyVal.none PyVal.none).1.attr_segment_name
        = some (PyVal.str subductionLabel) :=
  ⟨((C6_theorem emptyState (PyVal.bool true) mentawaiFrame (PyVal.str "d")).1
      (Or.inr (Or.inr (Or.inr (by decide))))).1,
    by
      have h := ((C6_theorem leakState PyVal.none PyVal.none PyVal.none).2
        (by decide) (by decide) ⟨mentawaiFrame, rfl⟩ (by decide)).2
      rw [h]
      decide⟩

/-- Every distance row carries exactly `111.18 *` the planar distance between
the epicenter point and the corresponding fault record's line geometry. -/
theorem distRowsOf_zip (records : List FaultRecord) (pt : Pt) :
    ∀ p ∈ records.zip (distRowsOf records pt),
      p.2.distance = kmPerDegree * p.1.geometry.dist pt := by
  induction records with
  | nil => simp [distRowsOf]
  | cons r rest ih =>
    intro p hp
    simp only [distRowsOf, List.map_cons, List.zip_cons_cons, List.mem_cons] at hp
    rcases hp with h | h
    · subst h; rfl
    · exact ih p (by simpa [distRowsOf] using h)

/-- A non-`None` effective value refutes the corresponding two-sided guard. -/
theorem resolve_ne_none {x y : PyVal} (h : resolveDefault x y ≠ PyVal.none) :
    ¬(x = PyVal.none ∧ y = PyVal.none) := by
  rintro ⟨hx, hy⟩
  exact h (by rw [hx, hy]; rfl)

/-- C7 — with float effective coordinates and an unshadowed method,
`distance_to_fault` succeeds and stores the frame whose `Distance` entry, for
every fault record of the layer, is exactly `111.18` times the planar distance
between the epicenter point `(longitude, latitude)` and that record's line
geometry. -/
theorem C7_theorem (s : InstState) (latitude longitude : PyVal)
    (records : List FaultRecord)
    (hsh : s.attr_distance_to_fault = Option.none)
    (hlat : isFloat (resolveDefault latitude s.latitude) = true)
    (hlon : isFloat (resolveDefault longitude s.longitude) = true) :
    (distance_to_fault s latitude longitude (some records)).2 = Option.none ∧
      (distance_to_fault s latitude longitude (some records)).1.attr_distance_to_fault
        = some (PyVal.frame (distRowsOf records
            ⟨numVal (resolveDefault longitude s.longitude),
              numVal (resolveDefault latitude s.latitude)⟩)) ∧
      ∀ p ∈ records.zip (distRowsOf records
            ⟨numVal (resolveDefault longitude s.longitude),
              numVal (resolveDefault latitude s.latitude)⟩),
        p.2.distance = kmPerDegree * p.1.geometry.dist
          ⟨numVal (resolveDefault longitude s.longitude),
            numVal (resolveDefault latitude s.latitude)⟩ := by
  have h2 : resolveDefault latitude s.latitude ≠ PyVal.none := by
    intro hc; rw [hc] at hlat; exact absurd hlat (by simp [isFloat])
  have h3 : resolveDefault longitude s.longitude ≠ PyVal.none := by
    intro hc; rw [hc] at hlon; exact absurd hlon (by simp [isFloat])
  refine ⟨?_, ?_, distRowsOf_zip records _⟩ <;>
    simp [distance_to_fault, hsh, hlat, hlon,
      resolve_ne_none h2, resolve_ne_none h3]

/-- C7 witness: a successful call at float coordinates stores the scaled
distance frame. -/
theorem C7_witness :
    isFloat (resolveDefault (PyVal.float 1) emptyState.latitude) = true ∧
      (distance_to_fault emptyState (PyVal.float 1) (PyVal.float 2) (some [recA])).2
        = Option.none ∧
      (distance_to_fault emptyState (PyVal.float 1) (PyVal.float 2) (some [recA])).1.attr_distance_to_fault
        = some (PyVal.frame (distRowsOf [recA]
            ⟨numVal (resolveDefault (PyVal.float 2) emptyState.longitude),
              numVal (resolveDefault (PyVal.float 1) emptyState.latitude)⟩)) :=
  ⟨by decide,
    (C7_theorem emptyState (PyVal.float 1) (PyVal.float 2) [recA]
      (by decide) (by decide) (by decide)).1,
    (C7_theorem emptyState (PyVal.float 1) (PyVal.float 2) [recA]
      (by decide) (by decide) (by decide)).2.1⟩

/-- C8 — `distance_to_fault` raises a `TypeError` whenever an effective
coordinate is present but not a float (so an integer is rejected), while
`is_inland` performs no float check and accepts integer coordinates,
computing the containment boolean normally. -/
theorem C8_theorem (s : InstState) (latitude longitude : PyVal)
    (records : List FaultRecord) (polys : List Polygon) :
    (s.attr_distance_to_fault = Option.none →
      resolveDefault latitude s.latitude ≠ PyVal.none →
      resolveDefault longitude s.longitude ≠ PyVal.none →
      (isFloat (resolveDefault latitude s.latitude) = false ∨
        isFloat (resolveDefault longitude s.longitude) = false) →
      distance_to_fault s latitude longitude (some records) = (s, some Err.typeError)) ∧
    (s.attr_is_inland = Option.none →
      ∀ a b : ℤ, resolveDefault latitude s.latitude = PyVal.int a →
        resolveDefault longitude s.longitude = PyVal.int b →
        is_inland s latitude longitude (some polys) =
          ({ s with
              attr_is_inland := some (PyVal.bool (containsAny polys ⟨(b : ℚ), (a : ℚ)⟩)) },
            Option.none)) := by
  constructor
  · intro hsh hne1 hne2 hfl
    rcases hfl with h | h
    · simp [distance_to_fault, hsh, h,
        resolve_ne_none hne1, resolve_ne_none hne2]
    · cases hlat : isFloat (resolveDefault latitude s.latitude) <;>
        simp [distance_to_fault, hsh, hlat, h,
          resolve_ne_none hne1, resolve_ne_none hne2]
  · intro hsh a b hla hlb
    have hne1 : resolveDefault latitude s.latitude ≠ PyVal.none := by
      rw [hla]; intro hc; cases hc
    have hne2 : resolveDefault longitude s.longitude ≠ PyVal.none := by
      rw [hlb]; intro hc; cases hc
    simp [is_inland, hsh, hla, hlb, toNum,
      resolve_ne_none hne1, resolve_ne_none hne2]

/-- C8 witness: integer coordinates (3, 4) are rejected with a `TypeError` by
`distance_to_fault` but accepted by `is_inland`. -/
theorem C8_witness :
    distance_to_fault emptyState (PyVal.int 3) (PyVal.int 4) (some [recA])
        = (emptyState, some Err.typeError) ∧
      is_inland emptyState (PyVal.int 3) (PyVal.int 4) (some [])
        = ({ emptyState with
            attr_is_inland := some (PyVal.bool (containsAny [] ⟨(4 : ℚ), (3 : ℚ)⟩)) },
          Option.none) :=
  ⟨(C8_theorem emptyState (PyVal.int 3) (PyVal.int 4) [recA] []).1
      (by decide) (by decide) (by decide) (Or.inl (by decide)),
    (C8_theorem emptyState (PyVal.int 3) (PyVal.int 4) [recA] []).2
      (by decide) 3 4 (by decide) (by decide)⟩

/-- C9 — with numeric effective coordinates and an unshadowed method,
`is_inland` stores the containment boolean for the point built as
`(longitude, latitude)`: true exactly when some polygon of the land layer
strictly contains the point, and false otherwise — in particular false when no
polygon's interior holds the point (e.g. boundary-only contact). -/
theorem C9_theorem (s : InstState) (latitude longitude : PyVal)
    (polys : List Polygon) (x y : ℚ)
    (hsh : s.attr_is_inland = Option.none)
    (hlon : toNum (resolveDefault longitude s.longitude) = some x)
    (hlat : toNum (resolveDefault latitude s.latitude) = some y) :
    is_inland s latitude longitude (some polys) =
      ({ s with attr_is_inland := some (PyVal.bool (containsAny polys ⟨x, y⟩)) },
        Option.none) ∧
      (containsAny polys ⟨x, y⟩ = true ↔
        ∃ poly ∈ polys, poly.interior ⟨x, y⟩ = true) ∧
      ((∀ poly ∈ polys, poly.interior ⟨x, y⟩ = false) →
        containsAny polys ⟨x, y⟩ = false) := by
  have hne1 : resolveDefault latitude s.latitude ≠ PyVal.none := by
    intro hc; rw [hc] at hlat; exact absurd hlat (by simp [toNum])
  have hne2 : resolveDefault longitude s.longitude ≠ PyVal.none := by
    intro hc; rw [hc] at hlon; exact absurd hlon (by simp [toNum])
  refine ⟨?_, ?_, ?_⟩
  · simp [is_inland, hsh, hlon, hlat, resolve_ne_none hne1, resolve_ne_none hne2]
  · simp [containsAny, polyContains, List.any_eq_true]
  · intro hall
    cases hc : containsAny polys ⟨x, y⟩ with
    | false => rfl
    | true =>
      obtain ⟨poly, hm, ht⟩ := by
        simpa [containsAny, polyContains, List.any_eq_true] using hc
      exact absurd ht (by simp [hall poly hm])

/-- A polygon touching the test point only on its boundary. -/
def bdryPoly : Polygon :=
  ⟨fun _ => false, fun _ => true⟩

/-- A polygon strictly containing every test point. -/
def fullPoly : Polygon :=
  ⟨fun _ => true, fun _ => false⟩

/-- C9 witness: a boundary-only polygon yields false, a containing polygon
yields true. -/
theorem C9_witness :
    is_inland emptyState (PyVal.float 1) (PyVal.float 2) (some [bdryPoly]) =
        ({ emptyState with attr_is_inland := some (PyVal.bool false) }, Option.none) ∧
      is_inland emptyState (PyVal.float 1) (PyVal.float 2) (some [fullPoly]) =
        ({ emptyState with attr_is_inland := some (PyVal.bool true) }, Option.none) := by
  constructor
  · have h := (C9_theorem emptyState (PyVal.float 1) (PyVal.float 2) [bdryPoly] 2 1
      rfl rfl rfl).1
    rw [h]; rfl
  · have h := (C9_theorem emptyState (PyVal.float 1) (PyVal.float 2) [fullPoly] 2 1
      rfl rfl rfl).1
    rw [h]; rfl

/-- A successful `is_inland` call stores a containment boolean in the
attribute that shadows the method. -/
theorem is_inland_spec (s : InstState) (la lo : PyVal) (u : Option (List Polygon)) :
    (is_inland s la lo u).2 = Option.none →
    ∃ b : Bool, is_inland s la lo u =
      ({ s with attr_is_inland := some (PyVal.bool b) }, Option.none) := by
  unfold is_inland
  split_ifs
  · intro h; simp at h
  · intro h; simp at h
  · intro h; simp at h
  · intro h; simp at h
  · dsimp only
    split
    · intro _; exact ⟨_, rfl⟩
    · intro h; simp at h

/-- A successful `distance_to_fault` call stores the distance frame and the
nearest selection in the attributes that shadow the method. -/
theorem distance_to_fault_spec (s : InstState) (la lo : PyVal)
    (u : Option (List FaultRecord)) :
    (distance_to_fault s la lo u).2 = Option.none →
    ∃ rows : List DistRow, distance_to_fault s la lo u =
      ({ s with attr_distance_to_fault := some (PyVal.frame rows),
                attr_nearest_segment := some (PyVal.frame (nearestSelection rows)) },
        Option.none) := by
  unfold distance_to_fault
  split_ifs
  · intro h; simp at h
  · intro h; simp at h
  · intro h; simp at h
  · intro h; simp at h
  · dsimp only
    split_ifs
    · intro _; exact ⟨_, rfl⟩
    · intro h; simp at h
    · intro h; simp at h

/-- The sea attribution never touches the location string, the stored nearest
frame or the depth. -/
theorem seaAttribution_frame (s : InstState) (nv : PyVal) :
    (seaAttribution s nv).1.attr_is_inland = s.attr_is_inland ∧
      (seaAttribution s nv).1.attr_nearest_segment = s.attr_nearest_segment ∧
      (seaAttribution s nv).1.depth = s.depth := by
  cases nv with
  | frame rows => cases rows <;> simp [seaAttribution]
  | none => simp [seaAttribution]
  | bool b => simp [seaAttribution]
  | int v => simp [seaAttribution]
  | float v => simp [seaAttribution]
  | str v => simp [seaAttribution]
  | method => simp [seaAttribution]

/-- The land attribution never touches the location string, the stored nearest
frame or the depth. -/
theorem landAttribution_frame (s : InstState) (nv : PyVal) :
    (landAttribution s nv).1.attr_is_inland = s.attr_is_inland ∧
      (landAttribution s nv).1.attr_nearest_segment = s.attr_nearest_segment ∧
      (landAttribution s nv).1.depth = s.depth := by
  cases nv with
  | frame rows =>
    match rows with
    | [] => simp [landAttribution]
    | [r] => simp [landAttribution, apply_ite]
    | r :: r2 :: rest => simp [landAttribution]
  | none => simp [landAttribution]
  | bool b => simp [landAttribution]
  | int v => simp [landAttribution]
  | float v => simp [landAttribution]
  | str v => simp [landAttribution]
  | method => simp [landAttribution]

/-- Whatever the nearest value is, the attribution core over a boolean
containment value and a numeric depth always replaces the stored containment
value with the location string `'darat'` or `'laut'`, and leaves the stored
nearest frame and depth untouched. -/
theorem attributeCore_bool_shape (s : InstState) (b : Bool) (nv dv : PyVal)
    (hnum : isNumeric dv = true) :
    (attributeCore s (PyVal.bool b) nv dv).1.attr_is_inland
        = some (PyVal.str (if b then "darat" else "laut")) ∧
      (attributeCore s (PyVal.bool b) nv dv).1.attr_nearest_segment
        = s.attr_nearest_segment ∧
      (attributeCore s (PyVal.bool b) nv dv).1.depth = s.depth := by
  by_cases h50 : (50 : ℚ) < numVal dv
  · rw [attributeCore_gt50 s b nv dv hnum h50]
    simp
  · cases b
    · rw [attributeCore_le50_sea s nv dv hnum h50]
      have h := seaAttribution_frame
        { s with attr_segment_name := some PyVal.none,
                 attr_is_inland := some (PyVal.str "laut") } nv
      simpa using h
    · rw [attributeCore_le50_land s nv dv hnum h50]
      have h := landAttribution_frame
        { s with attr_segment_name := some PyVal.none,
                 attr_is_inland := some (PyVal.str "darat") } nv
      simpa using h

/-- Re-running the attribution from a state whose containment attribute holds
a string raises the `isinstance` `TypeError`. -/
theorem second_run_typeError (s : InstState) (t : String) (nv : PyVal)
    (hiv : s.attr_is_inland = some (PyVal.str t))
    (hn : getNearest s PyVal.none = Except.ok nv)
    (hd : isNumeric s.depth = true) :
    (determine_eq_source s PyVal.none PyVal.none PyVal.none).2 = some Err.typeError := by
  have h1 : resolveDefault PyVal.none (lookup_is_inland s) = PyVal.str t := by
    simp [resolveDefault, lookup_is_inland, hiv]
  have h3 : resolveDefault PyVal.none s.depth ≠ PyVal.none := by
    simp only [resolveDefault]
    intro hc; rw [hc] at hd; exact absurd hd (by simp [isNumeric])
  rw [determine_ok s PyVal.none PyVal.none PyVal.none nv (by rw [h1]; simp) hn h3, h1]
  simp [attributeCore, resolveDefault, hd, apply_ite]

/-- C10 — each stage assigns its result to the instance attribute bearing the
method's own name: after a successful `is_inland` or `distance_to_fault` call
the method name is shadowed by the stored result, so a second invocation on
the same instance raises the not-callable `TypeError`; and a run of
`determine_eq_source` over a stored containment boolean replaces it with the
string `'darat'` or `'laut'`, so re-running the attribution from stored state
raises the `isinstance` `TypeError`. -/
theorem C10_theorem :
    (∀ (s : InstState) (la lo : PyVal) (u : Option (List Polygon))
        (la2 lo2 : PyVal) (u2 : Option (List Polygon)),
      (is_inland s la lo u).2 = Option.none →
      (is_inland s la lo u).1.attr_is_inland.isSome = true ∧
        is_inland (is_inland s la lo u).1 la2 lo2 u2
          = ((is_inland s la lo u).1, some Err.typeError)) ∧
    (∀ (s : InstState) (la lo : PyVal) (u : Option (List FaultRecord))
        (la2 lo2 : PyVal) (u2 : Option (List FaultRecord)),
      (distance_to_fault s la lo u).2 = Option.none →
      (distance_to_fault s la lo u).1.attr_distance_to_fault.isSome = true ∧
        distance_to_fault (distance_to_fault s la lo u).1 la2 lo2 u2
          = ((distance_to_fault s la lo u).1, some Err.typeError)) ∧
    (∀ (s : InstState) (b : Bool) (rows : List DistRow),
      s.attr_is_inland = some (PyVal.bool b) →
      s.attr_nearest_segment = some (PyVal.frame rows) →
      isNumeric s.depth = true →
      (determine_eq_source s PyVal.none PyVal.none PyVal.none).1.attr_is_inland
          = some (PyVal.str (if b then "darat" else "laut")) ∧
        (determine_eq_source
            (determine_eq_source s PyVal.none PyVal.none PyVal.none).1
            PyVal.none PyVal.none PyVal.none).2 = some Err.typeError) := by
  refine ⟨?_, ?_, ?_⟩
  · intro s la lo u la2 lo2 u2 h
    obtain ⟨b, heq⟩ := is_inland_spec s la lo u h
    rw [heq]
    exact ⟨by simp, by simp [is_inland]⟩
  · intro s la lo u la2 lo2 u2 h
    obtain ⟨rows, heq⟩ := distance_to_fault_spec s la lo u h
    rw [heq]
    exact ⟨by simp, by simp [distance_to_fault]⟩
  · intro s b rows hbi hns hdep
    have hlook : lookup_is_inland s = PyVal.bool b := by
      simp [lookup_is_inland, hbi]
    have hgn : getNearest s PyVal.none = Except.ok (PyVal.frame rows) := by
      simp [getNearest, hns]
    have h1 : resolveDefault PyVal.none (lookup_is_inland s) ≠ PyVal.none := by
      simp [resolveDefault, hlook]
    have h3 : resolveDefault PyVal.none s.depth ≠ PyVal.none := by
      simp only [resolveDefault]
      intro hc; rw [hc] at hdep; exact absurd hdep (by simp [isNumeric])
    have hcall := determine_ok s PyVal.none PyVal.none PyVal.none
      (PyVal.frame rows) h1 hgn h3
    have hres : resolveDefault PyVal.none (lookup_is_inland s) = PyVal.bool b := by
      simp [resolveDefault, hlook]
    rw [hres] at hcall
    have hdres : resolveDefault PyVal.none s.depth = s.depth := rfl
    rw [hdres] at hcall
    obtain ⟨hsh1, hsh2, hsh3⟩ :=
      attributeCore_bool_shape s b (PyVal.frame rows) s.depth hdep
    rw [hcall]
    refine ⟨hsh1, ?_⟩
    refine second_run_typeError _ (if b then "darat" else "laut") (PyVal.frame rows)
      hsh1 ?_ ?_
    · simp [getNearest, hsh2, hns]
    · rw [hsh3]; exact hdep

/-- An instance holding a stored sea containment boolean, a stored nearest
frame and a stored numeric depth, as left by the first two pipeline stages. -/
def pipeState : InstState :=
  { emptyState with depth := PyVal.int 30,
                    attr_is_inland := some (PyVal.bool false),
                    attr_nearest_segment := some mentawaiFrame }

/-- C10 witness: concrete double invocations — a second `is_inland` and a
second `distance_to_fault` raise `TypeError`, and re-running the attribution
from stored state raises `TypeError`. -/
theorem C10_witness :
    ((is_inland emptyState (PyVal.float 1) (PyVal.float 2) (some [])).2
        = Option.none) ∧
      (is_inland (is_inland emptyState (PyVal.float 1) (PyVal.float 2) (some [])).1
          (PyVal.float 1) (PyVal.float 2) (some [])).2 = some Err.typeError ∧
      (distance_to_fault (distance_to_fault emptyState (PyVal.float 1) (PyVal.float 2)
            (some [])).1 (PyVal.float 1) (PyVal.float 2) (some [])).2
        = some Err.typeError ∧
      (determine_eq_source
          (determine_eq_source pipeState PyVal.none PyVal.none PyVal.none).1
          PyVal.none PyVal.none PyVal.none).2 = some Err.typeError := by
  refine ⟨by decide, ?_, ?_, ?_⟩
  · have h := ((C10_theorem.1 emptyState (PyVal.float 1) (PyVal.float 2) (some [])
      (PyVal.float 1) (PyVal.float 2) (some [])) (by decide)).2
    rw [h]
  · have h := ((C10_theorem.2.1 emptyState (PyVal.float 1) (PyVal.float 2) (some [])
      (PyVal.float 1) (PyVal.float 2) (some [])) (by decide)).2
    rw [h]
  · exact (C10_theorem.2.2 pipeState false [⟨"Mentawai", "t", 7, 1, 5⟩]
      (by decide) (by decide) (by decide)).2

end EqSrc
